import Mathlib

/-!
Verification development for the OrchestraAI browser dashboard client
(`static/script.js` and its richer sibling source file, here called the
client script). The client keeps an append-only message log fed by a
WebSocket, per-role counters, per-role column rendering with a markdown
heuristic, a time-sorted timeline view, a two-signal focus-state machine
driving column layout, reconnect-on-close behaviour, and guarded input
submission. The definitions below are a shallow embedding of that code:
JavaScript objects become structures, DOM state observed by the code
becomes explicit fields, `setTimeout` registrations become an emitted
timer list, and the WebSocket/DOM side effects become state transitions.
-/

/-- Character code 96 (the backquote character), used by the inline-code and
code-fence regular expressions of the client. -/
def backquote : Char := Char.ofNat 96

/-- Left brace character (code 123), used by the JSON grammar. -/
def lbrace : Char := Char.ofNat 123

/-- Right brace character (code 125), used by the JSON grammar. -/
def rbrace : Char := Char.ofNat 125

/-- JavaScript regular-expression class `\s` (also the character set removed
by `String.prototype.trim`): ASCII whitespace, line terminators, NBSP, BOM
and the Unicode space separators. -/
def isJsSpace (c : Char) : Bool :=
  c = ' ' || c = '\t' || c = '\n' || c = '\r' ||
  c.toNat = 11 || c.toNat = 12 || c.toNat = 160 ||
  c.toNat = 5760 || (8192 ≤ c.toNat && c.toNat ≤ 8202) ||
  c.toNat = 8232 || c.toNat = 8233 || c.toNat = 8239 ||
  c.toNat = 8287 || c.toNat = 12288 || c.toNat = 65279

/-- JavaScript line terminators: LF, CR, LS, PS. The regexp metacharacter
`.` (without the `s` flag) matches exactly the characters for which this is
false, and multiline `^` matches immediately after any of these. -/
def isLineTerminator (c : Char) : Bool :=
  c = '\n' || c = '\r' || c.toNat = 8232 || c.toNat = 8233

/-- JavaScript `String.prototype.trim`: strip `\s`-class characters from both
ends. -/
def jsTrim (s : String) : String :=
  String.mk (((s.data.dropWhile isJsSpace).reverse.dropWhile isJsSpace).reverse)

/-- Does `p` hold at some suffix of the character list?  This is how an
unanchored regular expression is tried at every start position. -/
def anySuffix (p : List Char → Bool) : List Char → Bool
  | [] => p []
  | c :: rest => p (c :: rest) || anySuffix p rest

/-- The suffixes that begin immediately after a line terminator (the
positions where a multiline `^` can match, other than the very start). -/
def lineStartsAfter : List Char → List (List Char)
  | [] => []
  | c :: rest => (if isLineTerminator c then [rest] else []) ++ lineStartsAfter rest

/-- All positions where a multiline `^` matches: the start of the string and
every position following a line terminator. -/
def anchorPositions (cs : List Char) : List (List Char) := cs :: lineStartsAfter cs

/-- Try an anchored pattern at every multiline `^` position. -/
def anyAnchor (p : List Char → Bool) (cs : List Char) : Bool :=
  (anchorPositions cs).any p

/-- Scan for a single closing occurrence of `target`, failing at a line
terminator: the matchability of `X.*?X`-style patterns after the opening
`X` has been consumed (`.` does not cross line terminators). -/
def singleClose (target : Char) : List Char → Bool
  | [] => false
  | c :: rest => c = target || (!isLineTerminator c && singleClose target rest)

/-- Matchability, anchored at the current position, of the patterns built
as target, lazy dot-run, target: the italic pattern (target star) and the
inline-code pattern (target backquote).  An opening character here and a
closing one later on the same line. -/
def matchPairAt (target : Char) : List Char → Bool
  | c :: rest => c = target && singleClose target rest
  | [] => false

/-- After an opening `**`, scan for a closing `**` without crossing a line
terminator: the tail of the bold pattern `\*\*.*?\*\*`. -/
def starStarClose : List Char → Bool
  | '*' :: '*' :: _ => true
  | c :: rest => !isLineTerminator c && starStarClose rest
  | [] => false

/-- Matchability of the bold pattern `\*\*.*?\*\*` anchored at the current position. -/
def matchBoldAt : List Char → Bool
  | '*' :: '*' :: rest => starStarClose rest
  | _ => false

/-- Three backquotes start here. -/
def startsWithFence : List Char → Bool
  | c1 :: c2 :: c3 :: _ => c1 = backquote && c2 = backquote && c3 = backquote
  | _ => false

/-- Matchability of the code-fence pattern (three backquotes, a lazy any-character run, three backquotes) anchored at the current position:
an opening fence here and another fence anywhere later (the class `[\s\S]`
crosses line terminators). -/
def matchCodeBlockAt (cs : List Char) : Bool :=
  startsWithFence cs && anySuffix startsWithFence (cs.drop 3)

/-- Three hyphens start here: matchability of the pattern `---+` anchored at the
current position. -/
def startsWithHr : List Char → Bool
  | c1 :: c2 :: c3 :: _ => c1 = '-' && c2 = '-' && c3 = '-'
  | _ => false

/-- The multiline heading pattern (line start, one to six `#`, then `\s`)
at an anchored position.  The greedy bounded repetition followed by the
mandatory `\s` succeeds exactly when the run of leading `#` characters has
length 1..6 and is followed by a whitespace-class character. -/
def matchHeadingAt (cs : List Char) : Bool :=
  let k := (cs.takeWhile (fun c => c = '#')).length
  (1 ≤ k && k ≤ 6) &&
    (match cs.drop k with
     | c :: _ => isJsSpace c
     | [] => false)

/-- The multiline list pattern `^\s*[-*+]\s` at an anchored position.  The
greedy `\s*` must stop exactly at the first non-whitespace character (the
bullet class contains no whitespace characters, so shorter matches cannot
succeed). -/
def matchListAt (cs : List Char) : Bool :=
  match cs.dropWhile isJsSpace with
  | c :: d :: _ => (c = '-' || c = '*' || c = '+') && isJsSpace d
  | _ => false

/-- The multiline ordered-list pattern `^\s*\d+\.\s` at an anchored
position: skip whitespace, a nonempty digit run, a dot, then whitespace. -/
def matchOrderedAt (cs : List Char) : Bool :=
  let t := cs.dropWhile isJsSpace
  let ds := t.takeWhile Char.isDigit
  !ds.isEmpty &&
    (match t.drop ds.length with
     | '.' :: d :: _ => isJsSpace d
     | _ => false)

/-- The multiline blockquote pattern `^\s*>\s` at an anchored position. -/
def matchQuoteAt (cs : List Char) : Bool :=
  match cs.dropWhile isJsSpace with
  | '>' :: d :: _ => isJsSpace d
  | _ => false

/-- The multiline table-row pattern `^\s*\|.*\|` at an anchored position:
skip whitespace, a pipe, then another pipe later on the same line. -/
def matchTableAt (cs : List Char) : Bool :=
  match cs.dropWhile isJsSpace with
  | '|' :: rest => singleClose '|' rest
  | _ => false

/-- After an opening `[`, scan (without crossing a line terminator) for the
first `](`; from there a `)` must follow on its line.  Committing to the
first `](` is equivalent to the regular expression's backtracking search:
a later `](` with a reachable `)` would make the earlier `)` search succeed
as well, since the scan between them crosses no line terminator. -/
def linkMid : List Char → Bool
  | ']' :: '(' :: rest => singleClose ')' rest
  | c :: rest => !isLineTerminator c && linkMid rest
  | [] => false

/-- Matchability of the link pattern `\[.*?\]\(.*?\)` anchored at the current position. -/
def matchLinkAt : List Char → Bool
  | '[' :: rest => linkMid rest
  | _ => false

/-- The client's `containsMarkdown`: the text matches at least one of the
eleven structural regular expressions (heading, bold, italic, inline code,
code block, unordered list, ordered list, link, blockquote, table row,
horizontal rule).  Anchored (`^...` with the `m` flag) patterns are tried at
every line start, the rest at every position. -/
def containsMarkdown (text : String) : Bool :=
  let cs := text.data
  anyAnchor matchHeadingAt cs ||
  anySuffix matchBoldAt cs ||
  anySuffix (matchPairAt '*') cs ||
  anySuffix (matchPairAt backquote) cs ||
  anySuffix matchCodeBlockAt cs ||
  anyAnchor matchListAt cs ||
  anyAnchor matchOrderedAt cs ||
  anySuffix matchLinkAt cs ||
  anyAnchor matchQuoteAt cs ||
  anyAnchor matchTableAt cs ||
  anySuffix startsWithHr cs

/-- One received message, with the four fields the client reads.  The
`timestamp` field is the numeric time value (milliseconds) that
`new Date(timestamp)` yields for the message; the client only ever compares
these values, so the numeric view is the faithful one for ordering. -/
structure Message where
  role : String
  message_type : String
  content : String
  timestamp : Nat
deriving DecidableEq

/-- The six role keys of the client's `messageCounts` object literal (the
same six keys index `roleNames` and the per-role DOM containers). -/
def knownRoles : List String :=
  ["human", "ether", "product_ai", "architect_ai", "interface_ai", "programmer_ai"]

/-- The own properties of the `roleNames` object literal in
`getRoleDisplayName`. -/
def roleNames : List (String × String) :=
  [("human", "👤 人类"),
   ("ether", "⚡ 以太"),
   ("product_ai", "🎯 产品AI"),
   ("architect_ai", "🏗️ 架构AI"),
   ("interface_ai", "🔌 接口AI"),
   ("programmer_ai", "💻 程序员AI")]

/-- First-match association-list lookup (object own-property read). -/
def lookupOwn : List (String × String) → String → Option String
  | [], _ => none
  | (k, v) :: rest, key => if k = key then some v else lookupOwn rest key

/-- Property keys that every plain JavaScript object literal inherits from
`Object.prototype` (ECMAScript §20.2.3 plus the Annex B accessors).  A read
of one of these keys on `roleNames` or `messageCounts` yields the inherited
member — a function, or `Object.prototype` itself for `__proto__` — which
is a truthy, non-string value. -/
def objectProtoKeys : List String :=
  ["constructor", "hasOwnProperty", "isPrototypeOf", "propertyIsEnumerable",
   "toLocaleString", "toString", "valueOf", "__proto__",
   "__defineGetter__", "__defineSetter__", "__lookupGetter__", "__lookupSetter__"]

/-- The value a JavaScript string-keyed read can produce here: either a
string, or a truthy member inherited from `Object.prototype` (recorded by
its key; its exact display text is engine-defined, but it is not the bare
key string). -/
inductive JsValue where
  | str (s : String)
  | inherited (key : String)
deriving DecidableEq

/-- The client's `getRoleDisplayName`: `roleNames[role] || role`.  An own
key yields its label; any other key first consults the prototype chain, so
an `Object.prototype` key yields the inherited truthy member and only the
remaining keys fall through `||` to the raw role string. -/
def getRoleDisplayName (role : String) : JsValue :=
  match lookupOwn roleNames role with
  | some label => JsValue.str label
  | none =>
      if role ∈ objectProtoKeys then JsValue.inherited role
      else JsValue.str role

/-- What the client does with a message's content when building a DOM node:
either route it through the external converter `marked.parse` (followed by
inter-tag whitespace normalization) and assign the result to `innerHTML`,
or assign the content verbatim to `textContent`.  The converter is an
external collaborator, so the rich case records the source text that was
routed to it. -/
inductive ContentRendering where
  | richMarkup (source : String)
  | literalText (text : String)
deriving DecidableEq

/-- The client's `formatTimestamp` calls `toLocaleTimeString`, a
locale-dependent presentation of the time value; it is modelled as an
injective rendering of the numeric time value. -/
def formatTimestamp (timestamp : Nat) : String := toString timestamp

/-- The DOM node built by `createMessageElement`: a `message` div whose
class includes the message type, a content div, and a timestamp div. -/
structure MessageElement where
  className : String
  content : ContentRendering
  timestampText : String
deriving DecidableEq

/-- The client's `createMessageElement`: content of a non-human message
that `containsMarkdown` accepts goes through `marked.parse` into
`innerHTML`; everything else is assigned as literal `textContent`. -/
def createMessageElement (m : Message) : MessageElement :=
  { className := "message " ++ m.message_type,
    content :=
      if m.role ≠ "human" && containsMarkdown m.content then
        ContentRendering.richMarkup m.content
      else
        ContentRendering.literalText m.content,
    timestampText := formatTimestamp m.timestamp }

/-- The DOM node built by `createTimelineMessageElement`: a role label (the
result of `getRoleDisplayName`, assigned to `textContent` after JavaScript
string coercion), the content div, and a time div. -/
structure TimelineElement where
  roleLabel : JsValue
  content : ContentRendering
  timeText : String
deriving DecidableEq

/-- The client's `createTimelineMessageElement`, with the same rich/literal
content dispatch as `createMessageElement`. -/
def createTimelineMessageElement (m : Message) : TimelineElement :=
  { roleLabel := getRoleDisplayName m.role,
    content :=
      if m.role ≠ "human" && containsMarkdown m.content then
        ContentRendering.richMarkup m.content
      else
        ContentRendering.literalText m.content,
    timeText := formatTimestamp m.timestamp }

/-- A callback registered with `setTimeout`. -/
inductive TimerAction where
  | clearNewMessageFlash (role : String)
  | clearRecentlyActive (role : String)
  | reconnect
deriving DecidableEq

/-- One `setTimeout` registration: a delay in milliseconds and the action
the callback performs when it fires. -/
structure TimerEvent where
  delayMs : Nat
  action : TimerAction
deriving DecidableEq

/-- An envelope the client writes to the socket (`ws.send` of the
JSON-serialized object with the given `type` and `content`). -/
inductive OutEnvelope where
  | humanInput (content : String)
  | interruptMsg (content : String)
deriving DecidableEq

/-- The parts of the document the client script reads or writes.  `columns`
lists the `data-role` values of the `.column` panes present in the page
markup; `columnClasses` is each pane's class list, `columnMessages` its
appended message nodes, `countLabels` its `.message-count` text.  The
`columns-container` attributes `data-active` and `data-dual-active` and its
`has-active` class, the timeline view's hidden flag and node list, the
connection-status indicator and the interrupt modal's hidden flag complete
the picture.  (Scroll offsets are purely presentational and not observed by
any logic, so they are not modelled.) -/
structure DomState where
  columns : List String
  columnClasses : String → List String
  columnMessages : String → List MessageElement
  countLabels : String → String
  containerHasActive : Bool
  dataActive : Option String
  dataDualActive : Option String
  timelineHidden : Bool
  timelineMessages : List TimelineElement
  statusShowsConnected : Bool
  interruptModalHidden : Bool

/-- The full client state: the `OrchestraAI` instance fields, the DOM parts
it manipulates, the envelopes written to the socket, the `setTimeout`
registrations made so far, and counters for `new WebSocket` constructions
and notification-sound side effects. -/
structure ClientState where
  messages : List Message
  messageCounts : String → Option Nat
  isConnected : Bool
  controlsEnabled : Bool
  userSelectedColumn : Option String
  lastMessageColumn : Option String
  inputValue : String
  interruptValue : String
  dom : DomState
  sentEnvelopes : List OutEnvelope
  timers : List TimerEvent
  connectAttempts : Nat
  notifications : Nat

/-- The `messageCounts` object literal at construction: the six own keys
hold 0.  A read of any other key yields a non-numeric value (`undefined`,
or an `Object.prototype` member), modelled as `none`. -/
def initialCounts : String → Option Nat :=
  fun r => if r ∈ knownRoles then some 0 else none

/-- JavaScript `this.messageCounts[role]++`: the keyed slot is rewritten
with its old value plus one.  For the six own keys this increments the
stored number; for any other key the old value is non-numeric, the
increment produces `NaN`, and the slot stays non-numeric (`none` absorbs). -/
def bumpCount (counts : String → Option Nat) (role : String) : String → Option Nat :=
  fun r =>
    if r = role then
      match counts role with
      | some n => some (n + 1)
      | none => none
    else counts r

/-- JavaScript truthiness of the two nullable role slots (`null` and the
empty string are falsy). -/
def optTruthy : Option String → Bool
  | none => false
  | some s => s ≠ ""

/-- The `activeColumns` array built at the top of `updateColumnLayout`:
push `userSelectedColumn` if truthy, then push `lastMessageColumn` if
truthy and strictly different from `userSelectedColumn`. -/
def activeColumnsList (user last : Option String) : List String :=
  (if optTruthy user then [user.getD ""] else []) ++
  (if optTruthy last && last != user then [last.getD ""] else [])

/-- The three classes removed from every column at the top of
`updateColumnLayout` (`classList.remove('active', 'user-selected',
'message-active')`). -/
def emphasisClasses : List String := ["active", "user-selected", "message-active"]

/-- `classList.add` of a single class: appended unless already present. -/
def addClass (cls : String) (l : List String) : List String :=
  if cls ∈ l then l else l ++ [cls]

/-- The strip phase of `updateColumnLayout`: every `.column` node in the
document loses all three emphasis classes before any new emphasis is
applied. -/
def stripEmphasis (dom : DomState) : DomState :=
  { dom with
    columnClasses := fun r =>
      if r ∈ dom.columns then
        (dom.columnClasses r).filter (fun c => c ∉ emphasisClasses)
      else dom.columnClasses r }

/-- `document.querySelector` on a role followed by `classList.add` of each
given class, a no-op when no column with that `data-role` exists.  The
role is interpolated into the selector text; in every call modelled with
this total function the role is selector-safe — column clicks supply the
`data-role` of an actual page column, and the ingest path reaches its
interpolated lookups only for roles past the `selectorSafe` check of
`addMessageChecked` — while a selector-breaking slot reaching such a
lookup raises instead, which `addMessageChecked` tracks. -/
def addClassesTo (dom : DomState) (role : String) (clss : List String) : DomState :=
  if role ∈ dom.columns then
    { dom with
      columnClasses := fun r =>
        if r = role then clss.foldl (fun acc c => addClass c acc) (dom.columnClasses r)
        else dom.columnClasses r }
  else dom

/-- The client's `updateColumnLayout`: build `activeColumns` from the two
focus slots; strip all emphasis classes from every column; then, if any
column is active, set the `has-active` class and the `data-active` (single)
or `data-dual-active` (ordered pair, rendered as `a-b`) container attribute
and re-apply the emphasis classes to the user-selected and last-message
columns; otherwise clear the container state. -/
def updateColumnLayout (user last : Option String) (dom0 : DomState) : DomState :=
  let ac := activeColumnsList user last
  let dom := stripEmphasis dom0
  if ac.length > 0 then
    let dom := { dom with containerHasActive := true }
    let dom :=
      if ac.length = 1 then
        { dom with dataActive := some (ac.headD ""), dataDualActive := none }
      else if ac.length = 2 then
        { dom with
          dataDualActive := some (ac.headD "" ++ "-" ++ (ac.drop 1).headD ""),
          dataActive := none }
      else dom
    let dom := if optTruthy user then addClassesTo dom (user.getD "") ["active", "user-selected"] else dom
    let dom := if optTruthy last then addClassesTo dom (last.getD "") ["active", "message-active"] else dom
    dom
  else
    { dom with containerHasActive := false, dataActive := none, dataDualActive := none }

/-- Recompute the layout from the instance's current focus slots. -/
def updateColumnLayoutS (s : ClientState) : ClientState :=
  { s with dom := updateColumnLayout s.userSelectedColumn s.lastMessageColumn s.dom }

/-- The client's `setUserSelectedColumn`: store the role, recompute the
layout, then add the `user-selected` animation class to that column (if it
exists in the document). -/
def setUserSelectedColumn (role : String) (s : ClientState) : ClientState :=
  let s1 := updateColumnLayoutS { s with userSelectedColumn := some role }
  if role ∈ s1.dom.columns then
    { s1 with dom := addClassesTo s1.dom role ["user-selected"] }
  else s1

/-- The column click handler: it only forwards to `setUserSelectedColumn`
when the clicked pane's `data-role` attribute is truthy. -/
def userSelectsColumn (role : String) (s : ClientState) : ClientState :=
  if role ≠ "" then setUserSelectedColumn role s else s

/-- The client's `setLastMessageColumn`: store the role, recompute the
layout, then add the `recently-active` animation class to that column and
schedule its removal after 2000 ms (if the column exists). -/
def setLastMessageColumn (role : String) (s : ClientState) : ClientState :=
  let s1 := updateColumnLayoutS { s with lastMessageColumn := some role }
  if role ∈ s1.dom.columns then
    { s1 with
      dom := addClassesTo s1.dom role ["recently-active"],
      timers := s1.timers ++ [⟨2000, TimerAction.clearRecentlyActive role⟩] }
  else s1

/-- The client's `renderMessageInColumn`: locate `messages-<role>`; if the
container is missing (unknown role) do nothing; otherwise append the
rendered node, flash the enclosing column with the `new-message` class and
schedule its removal after 1000 ms. -/
def renderMessageInColumn (m : Message) (s : ClientState) : ClientState :=
  if m.role ∈ s.dom.columns then
    { s with
      dom :=
        { s.dom with
          columnMessages := fun r =>
            if r = m.role then s.dom.columnMessages r ++ [createMessageElement m]
            else s.dom.columnMessages r,
          columnClasses := fun r =>
            if r = m.role then addClass "new-message" (s.dom.columnClasses r)
            else s.dom.columnClasses r },
      timers := s.timers ++ [⟨1000, TimerAction.clearNewMessageFlash m.role⟩] }
  else s

/-- Text shown for a counter slot (JavaScript number-to-string; a
non-numeric slot shows NaN). -/
def countText : Option Nat → String
  | some n => toString n
  | none => "NaN"

/-- The client's `updateMessageCount` on a valid-selector lookup: write the
counter slot's value into the column's `.message-count` label, a no-op
when the selector finds no element (unknown role).  The role is
interpolated into the selector text, so a selector-breaking role makes
`querySelector` raise instead; that exception path is tracked by
`addMessageChecked` below via `selectorSafe`, and this total function
models the calls whose role is selector-safe. -/
def updateMessageCountDom (role : String) (s : ClientState) : ClientState :=
  if role ∈ s.dom.columns then
    { s with dom := { s.dom with countLabels := fun r =>
        if r = role then countText (s.messageCounts role) else s.dom.countLabels r } }
  else s

/-- The snapshot sort in `renderTimelineView`: a spread copy of the log is
sorted by the comparator on `new Date(timestamp)` values.  JavaScript
`Array.prototype.sort` is stable, and a stable sort under this numeric
comparator is exactly a stable sort by non-decreasing time value. -/
def timelineSorted (msgs : List Message) : List Message :=
  msgs.mergeSort (fun a b => a.timestamp ≤ b.timestamp)

/-- The client's `renderTimelineView`: clear the timeline container and
rebuild it from the sorted snapshot copy of the log.  The stored log is
not touched. -/
def renderTimelineView (s : ClientState) : ClientState :=
  { s with dom := { s.dom with
      timelineMessages := (timelineSorted s.messages).map createTimelineMessageElement } }

/-- The client's `addMessage`, the single ingestion path: push onto the
log, bump the role's counter slot, render into the role's column, refresh
the count label, update the last-message focus slot (which recomputes the
layout), re-render the timeline when it is open, and play the notification
sound.  This is the total model of the non-throwing executions (every
interpolated selector valid); `addMessageChecked` below additionally
tracks the DOMException a selector-breaking role raises and coincides
with this function on selector-safe inputs. -/
def addMessage (m : Message) (s : ClientState) : ClientState :=
  let s1 := { s with
    messages := s.messages ++ [m],
    messageCounts := bumpCount s.messageCounts m.role }
  let s2 := renderMessageInColumn m s1
  let s3 := updateMessageCountDom m.role s2
  let s4 := setLastMessageColumn m.role s3
  let s5 := if s4.dom.timelineHidden then s4 else renderTimelineView s4
  { s5 with notifications := s5.notifications + 1 }

/-- Is a role string safe to interpolate into the client's attribute
selectors (the template is a bracket, `data-role=`, a double-quoted role,
a closing bracket, optionally followed by ` .message-count`)?  A role with
no double quote, no backslash and no newline, carriage return or form
feed becomes the literal content of the CSS string, so the resulting
selector is guaranteed valid (matching nothing for an unknown role).
Outside this class the substitution terminates the string early, escapes
its closing quote, or places an unescaped newline inside it, and the
model reports the lookup as the invalid-selector SyntaxError DOMException
the browser raises — the behaviour of every such role except contrived
injection strings that happen to reassemble a different valid selector
(there a browser finds no match instead); no theorem below evaluates the
exception component outside the guaranteed-valid class other than at a
concrete input that does raise. -/
def selectorSafe (role : String) : Bool :=
  role.data.all (fun c =>
    c != '"' && c != '\\' && c != '\n' && c != '\r' && c.toNat != 12)

/-- Safety of an optional focus slot for the guarded lookups (`if (slot)`
then `querySelector` with the slot interpolated): a null slot is never
looked up, and the empty string — falsy, also never looked up — is
selector-safe anyway. -/
def slotSelectorSafe : Option String → Bool
  | none => true
  | some r => selectorSafe r

/-- The message carried by the invalid-selector DOMException in the model. -/
def domSelectorError : String := "SyntaxError: not a valid selector"

/-- The prefix of `updateColumnLayout` executed before its first
interpolated per-column lookup: active-column list, emphasis strip,
container class and the `data-active` / `data-dual-active` attributes.
It describes the document state at which a selector-breaking
user-selected slot makes the subsequent lookup raise. -/
def layoutBeforeLookups (user last : Option String) (dom0 : DomState) : DomState :=
  let ac := activeColumnsList user last
  let dom := stripEmphasis dom0
  if ac.length > 0 then
    let dom := { dom with containerHasActive := true }
    if ac.length = 1 then
      { dom with dataActive := some (ac.headD ""), dataDualActive := none }
    else if ac.length = 2 then
      { dom with
        dataDualActive := some (ac.headD "" ++ "-" ++ (ac.drop 1).headD ""),
        dataActive := none }
    else dom
  else
    { dom with containerHasActive := false, dataActive := none, dataDualActive := none }

/-- The ingest path with its exception path tracked: the state actually
reached together with the uncaught DOMException, if one was raised.  The
interpolated `querySelector` of `updateMessageCount` — the first lookup
that sees an arbitrary, possibly wire-supplied role — throws for a
selector-breaking role after the log push, the counter bump and the
(`getElementById`-based, never-throwing) column render, skipping the rest
of the ingest.  A selector-breaking truthy user-selected slot would
likewise make the re-apply lookup inside the layout recomputation of
`setLastMessageColumn` throw, after the strip and container attributes
have landed but before any emphasis is re-applied.  On selector-safe
inputs the call completes and coincides with `addMessage`. -/
def addMessageChecked (m : Message) (s : ClientState) : ClientState × Option String :=
  let s1 := { s with
    messages := s.messages ++ [m],
    messageCounts := bumpCount s.messageCounts m.role }
  let s2 := renderMessageInColumn m s1
  if selectorSafe m.role then
    let s3 := updateMessageCountDom m.role s2
    if slotSelectorSafe s3.userSelectedColumn then
      let s4 := setLastMessageColumn m.role s3
      let s5 := if s4.dom.timelineHidden then s4 else renderTimelineView s4
      ({ s5 with notifications := s5.notifications + 1 }, none)
    else
      ({ s3 with
          lastMessageColumn := some m.role,
          dom := layoutBeforeLookups s3.userSelectedColumn (some m.role) s3.dom },
       some domSelectorError)
  else
    (s2, some domSelectorError)

/-- A decoded inbound envelope as dispatched by `handleWebSocketMessage`:
`connection_established` with an optional history array, `new_message`
with one message, or any other (or missing) type discriminator. -/
inductive Envelope where
  | connectionEstablished (messages : Option (List Message))
  | newMessage (m : Message)
  | other
deriving DecidableEq

/-- The client's `handleWebSocketMessage`: replay a nonempty history array
through `addMessage` in order, ingest a single new message, or only log an
unknown type. -/
def handleWebSocketMessage (env : Envelope) (s : ClientState) : ClientState :=
  match env with
  | Envelope.connectionEstablished (some ms) =>
      if ms.length > 0 then ms.foldl (fun st m => addMessage m st) s else s
  | Envelope.connectionEstablished none => s
  | Envelope.newMessage m => addMessage m s
  | Envelope.other => s

/-- The `ws.onopen` handler: liveness flag set, status indicator updated,
controls enabled. -/
def wsOnOpen (s : ClientState) : ClientState :=
  { s with
    isConnected := true
    controlsEnabled := true
    dom := { s.dom with statusShowsConnected := true } }

/-- `setupWebSocket` constructs a WebSocket toward the page origin's `/ws`
and installs the four handlers; the construction itself is modelled as an
attempt counter (the open/message/close events are the transition
functions `wsOnOpen`, `wsOnMessage`, `wsOnClose`). -/
def setupWebSocket (s : ClientState) : ClientState :=
  { s with connectAttempts := s.connectAttempts + 1 }

/-- The `ws.onclose` handler: liveness flag cleared, status indicator
updated, controls disabled, and one reconnect (a call of `setupWebSocket`)
scheduled 3000 ms later. -/
def wsOnClose (s : ClientState) : ClientState :=
  { s with
    isConnected := false
    controlsEnabled := false
    dom := { s.dom with statusShowsConnected := false }
    timers := s.timers ++ [⟨3000, TimerAction.reconnect⟩] }

/-- Firing a scheduled callback.  The reconnect callback re-invokes
`setupWebSocket` unconditionally; the two animation callbacks remove their
class from their column. -/
def fireTimerAction : TimerAction → ClientState → ClientState
  | TimerAction.reconnect, s => setupWebSocket s
  | TimerAction.clearNewMessageFlash role, s =>
      { s with
        dom := { s.dom with
                 columnClasses := fun r =>
                   if r = role then
                     (s.dom.columnClasses r).filter (fun c => c ≠ "new-message")
                   else s.dom.columnClasses r } }
  | TimerAction.clearRecentlyActive role, s =>
      { s with
        dom := { s.dom with
                 columnClasses := fun r =>
                   if r = role then
                     (s.dom.columnClasses r).filter (fun c => c ≠ "recently-active")
                   else s.dom.columnClasses r } }

/-- The client's `sendHumanInput`: no-op when the trimmed input is empty or
the connection is not live; otherwise send a `human_input` envelope and
clear the input field. -/
def sendHumanInput (s : ClientState) : ClientState :=
  let content := jsTrim s.inputValue
  if content = "" || !s.isConnected then s
  else
    { s with
      sentEnvelopes := s.sentEnvelopes ++ [OutEnvelope.humanInput content],
      inputValue := "" }

/-- The client's `hideInterruptModal`: hide the modal and clear its input. -/
def hideInterruptModal (s : ClientState) : ClientState :=
  { s with dom := { s.dom with interruptModalHidden := true }, interruptValue := "" }

/-- The client's `confirmInterrupt`: no-op when the trimmed interrupt input
is empty or the connection is not live; otherwise send an `interrupt`
envelope and dismiss the modal. -/
def confirmInterrupt (s : ClientState) : ClientState :=
  let content := jsTrim s.interruptValue
  if content = "" || !s.isConnected then s
  else
    hideInterruptModal
      { s with sentEnvelopes := s.sentEnvelopes ++ [OutEnvelope.interruptMsg content] }

/-- A parsed JSON value.  Numbers keep their validated lexeme (the client
never computes with envelope numbers except through the message decoding
below). -/
inductive Json where
  | null
  | bool (b : Bool)
  | num (lexeme : String)
  | str (s : String)
  | arr (items : List Json)
  | obj (fields : List (String × Json))

/-- JSON insignificant whitespace. -/
def isJsonWs (c : Char) : Bool :=
  c = ' ' || c = '\t' || c = '\n' || c = '\r'

/-- Skip JSON insignificant whitespace. -/
def skipJsonWs (cs : List Char) : List Char := cs.dropWhile isJsonWs

/-- Hexadecimal digit test for string escapes. -/
def isHexDigit (c : Char) : Bool :=
  c.isDigit || ('a' ≤ c && c ≤ 'f') || ('A' ≤ c && c ≤ 'F')

/-- Value of a hexadecimal digit. -/
def hexVal (c : Char) : Nat :=
  if c.isDigit then c.toNat - 48
  else if 'a' ≤ c then c.toNat - 87
  else c.toNat - 55

/-- Parse the body of a JSON string after the opening quote, returning the
decoded characters and the remainder after the closing quote.  Handles the
standard escapes; a `\u` escape naming an unpaired UTF-16 surrogate is not
a scalar value and decodes to the null character here (no traffic of this
client uses surrogates).  Raw control characters are rejected, as by
`JSON.parse`. -/
def parseStrBody : Nat → List Char → Option (List Char × List Char)
  | 0, _ => none
  | _, [] => none
  | fuel + 1, c :: rest =>
    if c = '"' then some ([], rest)
    else if c = '\\' then
      match rest with
      | [] => none
      | e :: rest2 =>
        let esc : Option Char :=
          if e = '"' then some '"'
          else if e = '\\' then some '\\'
          else if e = '/' then some '/'
          else if e = 'b' then some (Char.ofNat 8)
          else if e = 'f' then some (Char.ofNat 12)
          else if e = 'n' then some '\n'
          else if e = 'r' then some '\r'
          else if e = 't' then some '\t'
          else none
        match esc with
        | some ch => (parseStrBody fuel rest2).map (fun p => (ch :: p.1, p.2))
        | none =>
          if e = 'u' then
            match rest2 with
            | h1 :: h2 :: h3 :: h4 :: rest3 =>
              if isHexDigit h1 && isHexDigit h2 && isHexDigit h3 && isHexDigit h4 then
                let code := ((hexVal h1 * 16 + hexVal h2) * 16 + hexVal h3) * 16 + hexVal h4
                (parseStrBody fuel rest3).map (fun p => (Char.ofNat code :: p.1, p.2))
              else none
            | _ => none
          else none
    else if c.toNat < 32 then none
    else (parseStrBody fuel rest).map (fun p => (c :: p.1, p.2))

/-- Split a leading digit run. -/
def spanDigits (cs : List Char) : List Char × List Char :=
  (cs.takeWhile Char.isDigit, cs.dropWhile Char.isDigit)

/-- Parse an optional JSON fraction part. -/
def parseFrac : List Char → Option (List Char × List Char)
  | '.' :: r =>
      let p := spanDigits r
      if p.1.isEmpty then none else some ('.' :: p.1, p.2)
  | cs => some ([], cs)

/-- Parse an optional JSON exponent part. -/
def parseExp : List Char → Option (List Char × List Char)
  | [] => some ([], [])
  | c :: r =>
    if c = 'e' || c = 'E' then
      let sgn := match r with
        | s :: r2 => if s = '+' || s = '-' then ([s], r2) else (([] : List Char), r)
        | [] => ([], r)
      let p := spanDigits sgn.2
      if p.1.isEmpty then none else some (c :: (sgn.1 ++ p.1), p.2)
    else some ([], c :: r)

/-- Parse a JSON number (optional minus, integer with no leading zeros,
optional fraction, optional exponent), returning its lexeme. -/
def parseNum (cs : List Char) : Option (String × List Char) :=
  let p0 := match cs with
    | '-' :: r => (['-'], r)
    | _ => (([] : List Char), cs)
  let ip := spanDigits p0.2
  if ip.1.isEmpty then none
  else if ip.1.length > 1 && ip.1.headD '0' = '0' then none
  else
    match parseFrac ip.2 with
    | none => none
    | some fp =>
      match parseExp fp.2 with
      | none => none
      | some ep => some (String.mk (p0.1 ++ ip.1 ++ fp.1 ++ ep.1), ep.2)

mutual

/-- Parse a JSON value at the head of the input (after skipping leading
whitespace), returning the value and the remainder. -/
def parseValue : Nat → List Char → Option (Json × List Char)
  | 0, _ => none
  | fuel + 1, cs =>
    match skipJsonWs cs with
    | [] => none
    | c :: rest =>
      if c = '"' then
        (parseStrBody (rest.length + 1) rest).map (fun p => (Json.str (String.mk p.1), p.2))
      else if c = '[' then
        match skipJsonWs rest with
        | ']' :: r2 => some (Json.arr [], r2)
        | r2 => (parseArrItems fuel r2).map (fun p => (Json.arr p.1, p.2))
      else if c = lbrace then
        match skipJsonWs rest with
        | d :: r2 =>
            if d = rbrace then some (Json.obj [], r2)
            else (parseObjItems fuel (d :: r2)).map (fun p => (Json.obj p.1, p.2))
        | [] => none
      else if c = 't' then
        match rest with
        | 'r' :: 'u' :: 'e' :: r2 => some (Json.bool true, r2)
        | _ => none
      else if c = 'f' then
        match rest with
        | 'a' :: 'l' :: 's' :: 'e' :: r2 => some (Json.bool false, r2)
        | _ => none
      else if c = 'n' then
        match rest with
        | 'u' :: 'l' :: 'l' :: r2 => some (Json.null, r2)
        | _ => none
      else
        (parseNum (c :: rest)).map (fun p => (Json.num p.1, p.2))

/-- Parse the items of a nonempty JSON array, positioned after the opening
bracket (and not at a closing bracket). -/
def parseArrItems : Nat → List Char → Option (List Json × List Char)
  | 0, _ => none
  | fuel + 1, cs =>
    match parseValue fuel cs with
    | none => none
    | some (j, rest) =>
      match skipJsonWs rest with
      | c :: r2 =>
        if c = ',' then (parseArrItems fuel r2).map (fun p => (j :: p.1, p.2))
        else if c = ']' then some ([j], r2)
        else none
      | [] => none

/-- Parse the members of a nonempty JSON object, positioned after the
opening brace (and not at a closing brace). -/
def parseObjItems : Nat → List Char → Option (List (String × Json) × List Char)
  | 0, _ => none
  | fuel + 1, cs =>
    match skipJsonWs cs with
    | [] => none
    | c :: rest =>
      if c = '"' then
        match parseStrBody (rest.length + 1) rest with
        | none => none
        | some (key, r2) =>
          match skipJsonWs r2 with
          | ':' :: r3 =>
            match parseValue fuel r3 with
            | none => none
            | some (v, r4) =>
              match skipJsonWs r4 with
              | c2 :: r5 =>
                if c2 = ',' then
                  (parseObjItems fuel r5).map (fun p => ((String.mk key, v) :: p.1, p.2))
                else if c2 = rbrace then some ([(String.mk key, v)], r5)
                else none
              | [] => none
          | _ => none
      else none

end

/-- The model of `JSON.parse`: parse one JSON text with nothing but
whitespace around it; `none` is the `SyntaxError` throw. -/
def jsonParse (s : String) : Option Json :=
  match parseValue (s.data.length + 1) s.data with
  | some (j, rest) => if (skipJsonWs rest).isEmpty then some j else none
  | none => none

/-- Object member read with JavaScript semantics for `JSON.parse` results:
the last occurrence of a duplicated key wins; reads on arrays, strings,
numbers and booleans of the keys this client uses yield `undefined`
(`none`). -/
def lookupField : List (String × Json) → String → Option Json
  | [], _ => none
  | (k, v) :: rest, key =>
    match lookupField rest key with
    | some v2 => some v2
    | none => if k = key then some v else none

/-- Property read `data.<key>` on a parsed JSON value (never called on
`null`, which would throw; the caller handles that case). -/
def getField : Json → String → Option Json
  | Json.obj fields, key => lookupField fields key
  | _, _ => none

/-- The value of `data.type` as tested by the `switch`: only a string
member can equal one of the two case labels under strict equality. -/
def envTypeTag (j : Json) : Option String :=
  match getField j "type" with
  | some (Json.str t) => some t
  | _ => none

/-- Is the lexeme of a JSON number a representation of zero (every mantissa
digit 0)? -/
def numLexemeZero (lexeme : String) : Bool :=
  !((lexeme.data.takeWhile (fun c => c != 'e' && c != 'E')).any
      (fun c => c.isDigit && c != '0'))

/-- JavaScript truthiness of a parsed JSON value. -/
def jsTruthy : Json → Bool
  | Json.null => false
  | Json.bool b => b
  | Json.str s => s ≠ ""
  | Json.num lexeme => !numLexemeZero lexeme
  | Json.arr _ => true
  | Json.obj _ => true

/-- Digit run to number. -/
def natOfDigits (cs : List Char) : Nat :=
  cs.foldl (fun acc c => acc * 10 + (c.toNat - 48)) 0

/-- Decode one history or live message object into the `Message` fields the
client reads.  Timestamps are modelled by their numeric time value, so a
well-typed payload carries a number here; payloads of any other shape
would be ingested by the JavaScript with undefined fields, a corner no
claim exercises, and are reported as unmodelled. -/
def asMessage (j : Json) : Except String Message :=
  match j with
  | Json.obj fields =>
    match lookupField fields "role", lookupField fields "message_type",
          lookupField fields "content", lookupField fields "timestamp" with
    | some (Json.str r), some (Json.str mt), some (Json.str ct), some (Json.num ts) =>
      if ts.data ≠ [] && ts.data.all Char.isDigit then
        Except.ok { role := r, message_type := mt, content := ct,
                    timestamp := natOfDigits ts.data }
      else Except.error "unmodelled timestamp payload"
    | _, _, _, _ => Except.error "unmodelled message payload"
  | _ => Except.error "unmodelled message payload"

/-- Decode a parsed frame into the envelope `handleWebSocketMessage`
dispatches on.  A `null` frame throws on the `data.type` read.  For
`connection_established`, the guard `data.messages && data.messages.length
> 0` skips a falsy or empty-array member; a truthy non-array member with a
positive length would make `forEach` throw in the JavaScript and is
reported as an error here.  For `new_message`, a missing member makes the
`messageData.role` read throw. -/
def decodeEnvelope (j : Json) : Except String Envelope :=
  match j with
  | Json.null => Except.error "TypeError: cannot read properties of null"
  | _ =>
    match envTypeTag j with
    | some t =>
      if t = "connection_established" then
        match getField j "messages" with
        | some (Json.arr items) =>
          match items.mapM asMessage with
          | Except.ok ms => Except.ok (Envelope.connectionEstablished (some ms))
          | Except.error e => Except.error e
        | some v =>
          if jsTruthy v then Except.error "unmodelled non-array messages payload"
          else Except.ok (Envelope.connectionEstablished none)
        | none => Except.ok (Envelope.connectionEstablished none)
      else if t = "new_message" then
        match getField j "message" with
        | some m =>
          match asMessage m with
          | Except.ok msg => Except.ok (Envelope.newMessage msg)
          | Except.error e => Except.error e
        | none => Except.error "TypeError: cannot read properties of undefined"
      else Except.ok Envelope.other
    | none => Except.ok Envelope.other

/-- The message the `SyntaxError` of `JSON.parse` carries in the model. -/
def jsonSyntaxError : String := "SyntaxError: unexpected token in JSON"

/-- The `ws.onmessage` handler, which is not wrapped in any try/catch: it
calls `JSON.parse` on the frame text and hands the result to
`handleWebSocketMessage`.  An exception anywhere on that path (in
particular the `SyntaxError` of `JSON.parse` on a malformed frame)
propagates out of the handler as an uncaught error. -/
def wsOnMessage (raw : String) (s : ClientState) : Except String ClientState :=
  match jsonParse raw with
  | none => Except.error jsonSyntaxError
  | some data =>
    match decodeEnvelope data with
    | Except.error e => Except.error e
    | Except.ok env => Except.ok (handleWebSocketMessage env s)

/-- Modelled from the spec: the page markup (not part of the scripts) gives
the dashboard one `.column` pane per role, each with a `.message-count`
label showing 0, a hidden timeline view and a hidden interrupt modal; the
container starts with no active-layout state. -/
def initialDom : DomState :=
  { columns := knownRoles
    columnClasses := fun _ => ["column"]
    columnMessages := fun _ => []
    countLabels := fun _ => "0"
    containerHasActive := false
    dataActive := none
    dataDualActive := none
    timelineHidden := true
    timelineMessages := []
    statusShowsConnected := false
    interruptModalHidden := true }

/-- The client state right after the constructor ran: empty log, zeroed
counters, disconnected with controls disabled (per `setupUI`), both focus
slots `null`, and one WebSocket construction performed by `init`. -/
def initialClientState : ClientState :=
  { messages := []
    messageCounts := initialCounts
    isConnected := false
    controlsEnabled := false
    userSelectedColumn := none
    lastMessageColumn := none
    inputValue := ""
    interruptValue := ""
    dom := initialDom
    sentEnvelopes := []
    timers := []
    connectAttempts := 1
    notifications := 0 }

/-- Ingest a whole sequence of messages through `addMessage`, starting from
the freshly constructed client. -/
def ingestAll (msgs : List Message) : ClientState :=
  msgs.foldl (fun s m => addMessage m s) initialClientState

/-- The counter consistency invariant: every known role's counter slot
holds exactly the number of log entries with that role. -/
def CounterInv (s : ClientState) : Prop :=
  ∀ r ∈ knownRoles,
    s.messageCounts r = some ((s.messages.filter (fun mm => mm.role == r)).length)

/-- The three container observations set by the layout recomputation. -/
def layoutAttrsOf (dom : DomState) : Bool × Option String × Option String :=
  (dom.containerHasActive, dom.dataActive, dom.dataDualActive)

/-- The container observations `updateColumnLayout` produces, as a function
of the active-column list alone (the list never has more than two
entries). -/
def layoutSpec (user last : Option String) : Bool × Option String × Option String :=
  match activeColumnsList user last with
  | [] => (false, none, none)
  | [a] => (true, some a, none)
  | a :: b :: _ => (true, none, some (a ++ "-" ++ b))

/-- Concrete messages and states used to instantiate the theorems below at
computable inputs. -/
def demoHuman : Message :=
  { role := "human", message_type := "normal", content := "hello there", timestamp := 30 }

/-- A plain agent message. -/
def demoEther : Message :=
  { role := "ether", message_type := "normal", content := "plain reply", timestamp := 10 }

/-- A second agent message with a later time value. -/
def demoEtherLate : Message :=
  { role := "ether", message_type := "normal", content := "second reply", timestamp := 20 }

/-- A message whose role is none of the six known values. -/
def demoUnknown : Message :=
  { role := "observer_ai", message_type := "normal", content := "???", timestamp := 40 }

/-- A small ingestion sequence mixing known and unknown roles. -/
def demoList : List Message := [demoHuman, demoEther, demoUnknown, demoEtherLate]

/-- A human message whose text is shaped like markdown. -/
def demoBoldHuman : Message :=
  { role := "human", message_type := "normal", content := "**bold**", timestamp := 1 }

/-- An agent message starting with a heading marker. -/
def demoHeadingEther : Message :=
  { role := "ether", message_type := "normal", content := "# Title", timestamp := 2 }

/-- A message whose unknown role breaks the attribute-selector
interpolation (it contains a double quote). -/
def demoQuoteRole : Message :=
  { role := "a\"b", message_type := "normal", content := "boom", timestamp := 50 }

/-- A document state carrying stale emphasis classes on one column. -/
def demoStaleDom : DomState :=
  { initialDom with
    columnClasses := fun r =>
      if r = "product_ai" then ["column", "active", "user-selected", "message-active"]
      else ["column"] }

/-- A live client with text pending in both input fields. -/
def demoLive : ClientState :=
  { initialClientState with
    isConnected := true
    controlsEnabled := true
    inputValue := "  hi  "
    interruptValue := " stop "
    dom := { initialDom with interruptModalHidden := false } }

/-- A live client whose input fields hold only whitespace. -/
def demoBlankInput : ClientState :=
  { initialClientState with
    isConnected := true
    controlsEnabled := true
    inputValue := "   "
    interruptValue := "\t " }

/-- A well-formed frame with an unrecognized envelope type. -/
def demoUnknownFrame : String := "\x7b\"type\": \"ping\"\x7d"

/-- The parse result of `demoUnknownFrame`. -/
def demoUnknownFrameJson : Json := Json.obj [("type", Json.str "ping")]

theorem renderMessageInColumn_messages (m : Message) (s : ClientState) :
    (renderMessageInColumn m s).messages = s.messages := by
  unfold renderMessageInColumn; split <;> rfl

theorem renderMessageInColumn_counts (m : Message) (s : ClientState) :
    (renderMessageInColumn m s).messageCounts = s.messageCounts := by
  unfold renderMessageInColumn; split <;> rfl

theorem renderMessageInColumn_user (m : Message) (s : ClientState) :
    (renderMessageInColumn m s).userSelectedColumn = s.userSelectedColumn := by
  unfold renderMessageInColumn; split <;> rfl

theorem renderMessageInColumn_attrs (m : Message) (s : ClientState) :
    layoutAttrsOf (renderMessageInColumn m s).dom = layoutAttrsOf s.dom := by
  unfold renderMessageInColumn; split <;> rfl

theorem updateMessageCountDom_messages (role : String) (s : ClientState) :
    (updateMessageCountDom role s).messages = s.messages := by
  unfold updateMessageCountDom; split <;> rfl

theorem updateMessageCountDom_counts (role : String) (s : ClientState) :
    (updateMessageCountDom role s).messageCounts = s.messageCounts := by
  unfold updateMessageCountDom; split <;> rfl

theorem updateMessageCountDom_user (role : String) (s : ClientState) :
    (updateMessageCountDom role s).userSelectedColumn = s.userSelectedColumn := by
  unfold updateMessageCountDom; split <;> rfl

theorem updateMessageCountDom_attrs (role : String) (s : ClientState) :
    layoutAttrsOf (updateMessageCountDom role s).dom = layoutAttrsOf s.dom := by
  unfold updateMessageCountDom; split <;> rfl

theorem addClassesTo_attrs (dom : DomState) (role : String) (clss : List String) :
    layoutAttrsOf (addClassesTo dom role clss) = layoutAttrsOf dom := by
  unfold addClassesTo; split <;> rfl

theorem stripEmphasis_attrs (dom : DomState) :
    layoutAttrsOf (stripEmphasis dom) = layoutAttrsOf dom := rfl

theorem setLastMessageColumn_messages (role : String) (s : ClientState) :
    (setLastMessageColumn role s).messages = s.messages := by
  simp [setLastMessageColumn, updateColumnLayoutS, apply_ite ClientState.messages]

theorem setLastMessageColumn_counts (role : String) (s : ClientState) :
    (setLastMessageColumn role s).messageCounts = s.messageCounts := by
  simp [setLastMessageColumn, updateColumnLayoutS, apply_ite ClientState.messageCounts]

theorem setLastMessageColumn_user (role : String) (s : ClientState) :
    (setLastMessageColumn role s).userSelectedColumn = s.userSelectedColumn := by
  simp [setLastMessageColumn, updateColumnLayoutS, apply_ite ClientState.userSelectedColumn]

theorem renderTimelineView_messages (s : ClientState) :
    (renderTimelineView s).messages = s.messages := rfl

theorem renderTimelineView_counts (s : ClientState) :
    (renderTimelineView s).messageCounts = s.messageCounts := rfl

theorem renderTimelineView_user (s : ClientState) :
    (renderTimelineView s).userSelectedColumn = s.userSelectedColumn := rfl

theorem renderTimelineView_attrs (s : ClientState) :
    layoutAttrsOf (renderTimelineView s).dom = layoutAttrsOf s.dom := rfl

theorem addMessage_messages (m : Message) (s : ClientState) :
    (addMessage m s).messages = s.messages ++ [m] := by
  simp [addMessage, apply_ite ClientState.messages, setLastMessageColumn_messages,
    updateMessageCountDom_messages, renderTimelineView_messages, renderMessageInColumn_messages]

theorem addMessage_counts (m : Message) (s : ClientState) :
    (addMessage m s).messageCounts = bumpCount s.messageCounts m.role := by
  simp [addMessage, apply_ite ClientState.messageCounts, setLastMessageColumn_counts,
    updateMessageCountDom_counts, renderTimelineView_counts, renderMessageInColumn_counts]

theorem addMessage_user (m : Message) (s : ClientState) :
    (addMessage m s).userSelectedColumn = s.userSelectedColumn := by
  simp [addMessage, apply_ite ClientState.userSelectedColumn, setLastMessageColumn_user,
    updateMessageCountDom_user, renderTimelineView_user, renderMessageInColumn_user]

theorem addClassesTo_columns (dom : DomState) (role : String) (clss : List String) :
    (addClassesTo dom role clss).columns = dom.columns := by
  unfold addClassesTo; split <;> rfl

theorem addClassesTo_other (dom : DomState) (role r : String) (clss : List String)
    (h : r ≠ role) :
    (addClassesTo dom role clss).columnClasses r = dom.columnClasses r := by
  unfold addClassesTo; split <;> simp [h]

theorem stripEmphasis_no_emph (dom : DomState) (r : String) (hr : r ∈ dom.columns) :
    ∀ c ∈ emphasisClasses, c ∉ (stripEmphasis dom).columnClasses r := by
  intro c hc
  simp only [stripEmphasis, hr, if_pos, List.mem_filter]
  rintro ⟨-, hdec⟩
  simp only [decide_eq_true_eq] at hdec
  exact hdec hc

theorem addClassesTo_hasActive (dom : DomState) (role : String) (clss : List String) :
    (addClassesTo dom role clss).containerHasActive = dom.containerHasActive := by
  unfold addClassesTo; split <;> rfl

theorem addClassesTo_dataActive (dom : DomState) (role : String) (clss : List String) :
    (addClassesTo dom role clss).dataActive = dom.dataActive := by
  unfold addClassesTo; split <;> rfl

theorem addClassesTo_dataDual (dom : DomState) (role : String) (clss : List String) :
    (addClassesTo dom role clss).dataDualActive = dom.dataDualActive := by
  unfold addClassesTo; split <;> rfl

theorem updateColumnLayout_attrs (user last : Option String) (dom : DomState) :
    layoutAttrsOf (updateColumnLayout user last dom) = layoutSpec user last := by
  unfold updateColumnLayout layoutSpec activeColumnsList layoutAttrsOf
  by_cases h1 : optTruthy user <;> by_cases h2 : optTruthy last <;>
    by_cases h3 : last != user <;>
      simp [h1, h2, h3, addClassesTo_hasActive, addClassesTo_dataActive, addClassesTo_dataDual]

theorem setLastMessageColumn_attrs (role : String) (s : ClientState) :
    layoutAttrsOf (setLastMessageColumn role s).dom
      = layoutSpec s.userSelectedColumn (some role) := by
  unfold setLastMessageColumn updateColumnLayoutS
  dsimp only
  split <;>
    (simp only [layoutAttrsOf, addClassesTo_hasActive, addClassesTo_dataActive,
        addClassesTo_dataDual];
     exact updateColumnLayout_attrs _ _ _)

theorem addMessage_attrs (m : Message) (s : ClientState) :
    layoutAttrsOf (addMessage m s).dom
      = layoutSpec s.userSelectedColumn (some m.role) := by
  simp [addMessage, apply_ite (fun st : ClientState => layoutAttrsOf st.dom),
    renderTimelineView_attrs, setLastMessageColumn_attrs,
    updateMessageCountDom_user, renderMessageInColumn_user]

theorem setUserSelectedColumn_user (role : String) (s : ClientState) :
    (setUserSelectedColumn role s).userSelectedColumn = some role := by
  simp [setUserSelectedColumn, updateColumnLayoutS,
    apply_ite ClientState.userSelectedColumn]

theorem user_mem_active (user last : Option String) (h : optTruthy user = true) :
    user.getD "" ∈ activeColumnsList user last := by
  simp [activeColumnsList, h]

theorem last_mem_active (user last : Option String) (h : optTruthy last = true) :
    last.getD "" ∈ activeColumnsList user last := by
  by_cases he : last = user
  · subst he; simp [activeColumnsList, h]
  · have hb : (last != user) = true := by simp [bne_iff_ne, he]
    simp [activeColumnsList, hb, h]

theorem updateColumnLayout_classes_other (user last : Option String) (dom : DomState)
    (r : String)
    (hu : optTruthy user = true → r ≠ user.getD "")
    (hl : optTruthy last = true → r ≠ last.getD "") :
    (updateColumnLayout user last dom).columnClasses r
      = (stripEmphasis dom).columnClasses r := by
  unfold updateColumnLayout
  dsimp only
  by_cases h1 : optTruthy user <;> by_cases h2 : optTruthy last
  · have hru := hu h1
    have hrl := hl h2
    simp [h1, h2, addClassesTo_other, hru, hrl, addClassesTo_columns,
      apply_ite (fun d : DomState => d.columnClasses r)]
  · have hru := hu h1
    simp [h1, h2, addClassesTo_other, hru, addClassesTo_columns,
      apply_ite (fun d : DomState => d.columnClasses r)]
  · have hrl := hl h2
    simp [h1, h2, addClassesTo_other, hrl, addClassesTo_columns,
      apply_ite (fun d : DomState => d.columnClasses r)]
  · simp [h1, h2, apply_ite (fun d : DomState => d.columnClasses r)]

/-- C7: on every channel-loss event the liveness flag becomes false, the
dependent controls are disabled, and exactly one reconnect is scheduled
after a fixed 3000 ms delay; across any number of loss events the schedule
is one fixed-delay reconnect per event with no backoff growth and no retry
cap, and the scheduled callback re-invokes the connect routine
unconditionally. -/
theorem reconnect_fixed_delay_policy :
    (∀ s : ClientState,
        wsOnClose s = { s with
          isConnected := false
          controlsEnabled := false
          dom := { s.dom with statusShowsConnected := false }
          timers := s.timers ++ [{ delayMs := 3000, action := TimerAction.reconnect }] })
  ∧ (∀ (s : ClientState) (n : Nat),
        (Nat.iterate wsOnClose n s).timers
          = s.timers ++ List.replicate n { delayMs := 3000, action := TimerAction.reconnect })
  ∧ (∀ s : ClientState, fireTimerAction TimerAction.reconnect s = setupWebSocket s)
  ∧ (∀ s : ClientState, (setupWebSocket s).connectAttempts = s.connectAttempts + 1) := by
  refine ⟨fun s => rfl, ?_, fun s => rfl, fun s => rfl⟩
  intro s n
  induction n generalizing s with
  | zero => simp [Nat.iterate]
  | succ n ih =>
    have hstep : Nat.iterate wsOnClose (n + 1) s = Nat.iterate wsOnClose n (wsOnClose s) := rfl
    rw [hstep, ih]
    simp [wsOnClose, List.replicate_succ]

/-- C8: a `connection_established` envelope carrying history replays every
contained message through the identical ingestion path used for live
messages, in list order: the resulting client state is exactly the state
reached by handling one `new_message` envelope per entry in the same
order; an absent history list is a no-op. -/
theorem history_replay_equiv (ms : List Message) (s : ClientState) :
    (handleWebSocketMessage (Envelope.connectionEstablished (some ms)) s
      = ms.foldl (fun st m => handleWebSocketMessage (Envelope.newMessage m) st) s)
  ∧ (handleWebSocketMessage (Envelope.connectionEstablished (some ms)) s
      = ms.foldl (fun st m => addMessage m st) s)
  ∧ handleWebSocketMessage (Envelope.connectionEstablished none) s = s := by
  refine ⟨?_, ?_, rfl⟩
  · cases ms with
    | nil => rfl
    | cons a t =>
      show (if (a :: t).length > 0 then (a :: t).foldl (fun st m => addMessage m st) s else s) = _
      rw [if_pos (by simp)]
      rfl
  · cases ms with
    | nil => rfl
    | cons a t =>
      show (if (a :: t).length > 0 then (a :: t).foldl (fun st m => addMessage m st) s else s) = _
      rw [if_pos (by simp)]

/-- C9: `sendHumanInput` and `confirmInterrupt` are no-ops (state fully
unchanged: no channel traffic, fields and modal as-is) whenever the
trimmed content is empty or the liveness flag is false; on success
`sendHumanInput` emits a `human_input` envelope and clears the input
field, and `confirmInterrupt` emits an `interrupt` envelope, hides the
modal and clears its input. -/
theorem input_submission_guards (s : ClientState) :
    ((jsTrim s.inputValue = "" ∨ s.isConnected = false) → sendHumanInput s = s)
  ∧ (jsTrim s.inputValue ≠ "" → s.isConnected = true →
        sendHumanInput s = { s with
          sentEnvelopes := s.sentEnvelopes ++ [OutEnvelope.humanInput (jsTrim s.inputValue)]
          inputValue := "" })
  ∧ ((jsTrim s.interruptValue = "" ∨ s.isConnected = false) → confirmInterrupt s = s)
  ∧ (jsTrim s.interruptValue ≠ "" → s.isConnected = true →
        confirmInterrupt s = { s with
          sentEnvelopes := s.sentEnvelopes ++ [OutEnvelope.interruptMsg (jsTrim s.interruptValue)]
          interruptValue := ""
          dom := { s.dom with interruptModalHidden := true } }) := by
  refine ⟨?_, ?_, ?_, ?_⟩
  · rintro (h | h) <;> simp [sendHumanInput, h]
  · intro h1 h2; simp [sendHumanInput, h1, h2]
  · rintro (h | h) <;> simp [confirmInterrupt, h]
  · intro h1 h2; simp [confirmInterrupt, hideInterruptModal, h1, h2]

/-- C9 witness: on a live client, whitespace-only input is silently
rejected with the state untouched, while pending text is sent and the
fields cleared. -/
theorem input_submission_guards_witness :
    sendHumanInput demoBlankInput = demoBlankInput
  ∧ sendHumanInput demoLive = { demoLive with
      sentEnvelopes := demoLive.sentEnvelopes ++ [OutEnvelope.humanInput "hi"]
      inputValue := "" }
  ∧ confirmInterrupt demoLive = { demoLive with
      sentEnvelopes := demoLive.sentEnvelopes ++ [OutEnvelope.interruptMsg "stop"]
      interruptValue := ""
      dom := { demoLive.dom with interruptModalHidden := true } } := by
  refine ⟨(input_submission_guards demoBlankInput).1 (Or.inl (by decide)), ?_, ?_⟩
  · exact (input_submission_guards demoLive).2.1 (by decide) (by decide)
  · exact (input_submission_guards demoLive).2.2.2 (by decide) (by decide)

/-- C10 counterexample: the role string `constructor` is not one of the six
known roles, yet `getRoleDisplayName` does not return it unchanged — the
object-literal read `roleNames["constructor"]` finds the truthy member
inherited from the object prototype, which wins the `||`. -/
theorem display_name_proto_counterexample :
    getRoleDisplayName "constructor" = JsValue.inherited "constructor"
  ∧ getRoleDisplayName "constructor" ≠ JsValue.str "constructor" := by
  refine ⟨rfl, ?_⟩
  intro h
  rw [show getRoleDisplayName "constructor" = JsValue.inherited "constructor" from rfl] at h
  exact JsValue.noConfusion h

/-- C10 amended: `getRoleDisplayName` is total; each of the six known roles
maps to its fixed label; any other role string that is not a property name
inherited from the object prototype is returned unchanged; the inherited
property names yield the inherited (truthy, non-raw) member instead. -/
theorem display_name_total_amended (role : String) :
    (∀ label, lookupOwn roleNames role = some label →
        getRoleDisplayName role = JsValue.str label)
  ∧ (lookupOwn roleNames role = none → role ∉ objectProtoKeys →
        getRoleDisplayName role = JsValue.str role)
  ∧ (lookupOwn roleNames role = none → role ∈ objectProtoKeys →
        getRoleDisplayName role = JsValue.inherited role) := by
  refine ⟨?_, ?_, ?_⟩
  · intro label h; simp [getRoleDisplayName, h]
  · intro h hn; simp [getRoleDisplayName, h, hn]
  · intro h hm; simp [getRoleDisplayName, h, hm]

/-- C10 witness: a plain unknown role falls through to itself; a known role
gets its fixed label. -/
theorem display_name_total_amended_witness :
    getRoleDisplayName "spectator" = JsValue.str "spectator"
  ∧ getRoleDisplayName "human" = JsValue.str "👤 人类" :=
  ⟨(display_name_total_amended "spectator").2.1 rfl (by decide),
   (display_name_total_amended "human").1 "👤 人类" rfl⟩

/-- C2 counterexample: a frame that is not parseable JSON does not fail
silently — the receive handler propagates the parse error instead of
returning normally. -/
theorem malformed_frame_raises :
    wsOnMessage "oops" initialClientState = Except.error jsonSyntaxError
  ∧ wsOnMessage "oops" initialClientState ≠ Except.ok initialClientState := by
  refine ⟨rfl, ?_⟩
  intro h
  rw [show wsOnMessage "oops" initialClientState = Except.error jsonSyntaxError from rfl] at h
  exact Except.noConfusion h

/-- C2 amended: a frame that fails to parse as JSON raises an uncaught
`SyntaxError` out of the receive handler (with no state mutated), while a
frame that parses to a JSON value whose envelope type is unrecognized is
only logged and dropped, returning the state unchanged. -/
theorem inbound_frame_error_behavior :
    (∀ (raw : String) (s : ClientState), jsonParse raw = none →
        wsOnMessage raw s = Except.error jsonSyntaxError)
  ∧ (∀ (raw : String) (j : Json) (s : ClientState), jsonParse raw = some j →
        decodeEnvelope j = Except.ok Envelope.other →
        wsOnMessage raw s = Except.ok s) := by
  constructor
  · intro raw s h; simp [wsOnMessage, h]
  · intro raw j s h hd; simp [wsOnMessage, h, hd, handleWebSocketMessage]

/-- C2 witness: the concrete unknown-type frame is dropped silently with
the state unchanged, and a concrete non-JSON frame yields the propagated
parse error. -/
theorem inbound_frame_error_behavior_witness :
    wsOnMessage demoUnknownFrame initialClientState = Except.ok initialClientState
  ∧ wsOnMessage "not json" demoLive = Except.error jsonSyntaxError :=
  ⟨inbound_frame_error_behavior.2 demoUnknownFrame demoUnknownFrameJson initialClientState rfl rfl,
   inbound_frame_error_behavior.1 "not json" demoLive rfl⟩

theorem counterInv_initial : CounterInv initialClientState := by
  intro r hr
  simp [initialClientState, initialCounts, hr, CounterInv]

theorem counterInv_of_append (s s' : ClientState) (m : Message)
    (hmsg : s'.messages = s.messages ++ [m])
    (hcnt : s'.messageCounts = bumpCount s.messageCounts m.role)
    (h : CounterInv s) : CounterInv s' := by
  intro r hr
  rw [hcnt, hmsg]
  by_cases he : r = m.role
  · subst he
    have h0 := h m.role hr
    simp [bumpCount, h0, List.filter_append]
  · have h0 := h r hr
    have hbe : (m.role == r) = false := by
      simp [beq_iff_eq]
      exact fun hx => he hx.symm
    simp [bumpCount, he, h0, List.filter_append, hbe]

theorem counterInv_step (s : ClientState) (m : Message) (h : CounterInv s) :
    CounterInv (addMessage m s) :=
  counterInv_of_append s (addMessage m s) m (addMessage_messages m s)
    (addMessage_counts m s) h

theorem addMessageChecked_messages (m : Message) (s : ClientState) :
    (addMessageChecked m s).1.messages = s.messages ++ [m] := by
  simp [addMessageChecked, apply_ite (fun p : ClientState × Option String => p.1),
    apply_ite ClientState.messages, setLastMessageColumn_messages,
    updateMessageCountDom_messages, renderTimelineView_messages,
    renderMessageInColumn_messages]

theorem addMessageChecked_counts (m : Message) (s : ClientState) :
    (addMessageChecked m s).1.messageCounts = bumpCount s.messageCounts m.role := by
  simp [addMessageChecked, apply_ite (fun p : ClientState × Option String => p.1),
    apply_ite ClientState.messageCounts, setLastMessageColumn_counts,
    updateMessageCountDom_counts, renderTimelineView_counts,
    renderMessageInColumn_counts]

theorem addMessageChecked_complete (m : Message) (s : ClientState)
    (h1 : selectorSafe m.role = true)
    (h2 : slotSelectorSafe s.userSelectedColumn = true) :
    addMessageChecked m s = (addMessage m s, none) := by
  unfold addMessageChecked
  dsimp only
  rw [if_pos h1]
  split
  · rfl
  · rename_i hcond
    exfalso
    apply hcond
    rw [updateMessageCountDom_user, renderMessageInColumn_user]
    exact h2

/-- C1 counterexample: ingesting a message whose unknown role contains a
double quote appends it to the log and leaves the known-role counters
untouched, but does not complete without crashing — the interpolated
`querySelector` of `updateMessageCount` raises a SyntaxError DOMException
that escapes `addMessage`. -/
theorem unsafe_role_ingest_raises :
    (addMessageChecked demoQuoteRole initialClientState).2 = some domSelectorError
  ∧ (addMessageChecked demoQuoteRole initialClientState).1.messages
      = initialClientState.messages ++ [demoQuoteRole]
  ∧ (addMessageChecked demoQuoteRole initialClientState).1.messageCounts "human"
      = initialClientState.messageCounts "human" :=
  ⟨rfl, rfl, rfl⟩

/-- C1 (amended): starting from the freshly constructed client, after any
sequence of ingested messages every known role's counter equals the number
of log entries carrying that role; one ingest step preserves the
invariant, both in the total model and along the exception-tracking model
— so the invariant still holds after an ingest that aborts in a thrown
DOMException; ingesting an unknown-role message appends it to the log and
leaves all six known-role counters untouched whether or not the call
throws; and the call completes without any exception, coinciding with the
total model, whenever the message role and the user-selected slot are
selector-safe. -/
theorem counter_log_consistency :
    (∀ (msgs : List Message) (r : String), r ∈ knownRoles →
        (ingestAll msgs).messageCounts r
          = some (((ingestAll msgs).messages.filter (fun mm => mm.role == r)).length))
  ∧ (∀ (s : ClientState) (m : Message), CounterInv s → CounterInv (addMessage m s))
  ∧ (∀ (s : ClientState) (m : Message), CounterInv s →
        CounterInv (addMessageChecked m s).1)
  ∧ (∀ (s : ClientState) (m : Message), m.role ∉ knownRoles →
        (addMessageChecked m s).1.messages = s.messages ++ [m]
      ∧ ∀ r ∈ knownRoles, (addMessageChecked m s).1.messageCounts r = s.messageCounts r)
  ∧ (∀ (s : ClientState) (m : Message), selectorSafe m.role = true →
        slotSelectorSafe s.userSelectedColumn = true →
        addMessageChecked m s = (addMessage m s, none)) := by
  refine ⟨?_, counterInv_step, ?_, ?_, ?_⟩
  · have hfold : ∀ (msgs : List Message) (s : ClientState), CounterInv s →
        CounterInv (msgs.foldl (fun st mm => addMessage mm st) s) := by
      intro msgs
      induction msgs with
      | nil => intro s hs; exact hs
      | cons a t ih => intro s hs; exact ih (addMessage a s) (counterInv_step s a hs)
    intro msgs r hr
    exact hfold msgs initialClientState counterInv_initial r hr
  · intro s m h
    exact counterInv_of_append s (addMessageChecked m s).1 m
      (addMessageChecked_messages m s) (addMessageChecked_counts m s) h
  · intro s m hm
    refine ⟨addMessageChecked_messages m s, ?_⟩
    intro r hr
    rw [addMessageChecked_counts]
    have hne : r ≠ m.role := fun he => hm (he ▸ hr)
    simp [bumpCount, hne]
  · intro s m h1 h2
    exact addMessageChecked_complete m s h1 h2

/-- C1 witness: after the demo ingestion sequence the ether counter matches
the filtered log; ingesting the unknown-role message from the initial
state appends to the log while the human counter is untouched; and a
selector-safe ingest completes exception-free, agreeing with the total
model. -/
theorem counter_log_consistency_witness :
    (ingestAll demoList).messageCounts "ether"
      = some (((ingestAll demoList).messages.filter (fun mm => mm.role == "ether")).length)
  ∧ (addMessageChecked demoUnknown initialClientState).1.messages
      = initialClientState.messages ++ [demoUnknown]
  ∧ (addMessageChecked demoUnknown initialClientState).1.messageCounts "human"
      = initialClientState.messageCounts "human"
  ∧ addMessageChecked demoEther initialClientState
      = (addMessage demoEther initialClientState, none) := by
  refine ⟨counter_log_consistency.1 demoList "ether" (by decide), ?_, ?_, ?_⟩
  · exact (counter_log_consistency.2.2.2.1 initialClientState demoUnknown (by decide)).1
  · exact (counter_log_consistency.2.2.2.1 initialClientState demoUnknown (by decide)).2
      "human" (by decide)
  · exact counter_log_consistency.2.2.2.2 initialClientState demoEther (by decide) (by decide)

/-- C3: content is routed to the rich-markup converter exactly when the
role is not `human` and the content matches at least one of the structural
heuristics of `containsMarkdown`; otherwise (in particular for every
human-authored message, whatever its shape) it is inserted as literal
text; the timeline element uses the identical dispatch. -/
theorem human_literal_markdown_dispatch (m : Message) :
    ((createMessageElement m).content = ContentRendering.richMarkup m.content
        ↔ (m.role ≠ "human" ∧ containsMarkdown m.content = true))
  ∧ ((createMessageElement m).content = ContentRendering.richMarkup m.content
      ∨ (createMessageElement m).content = ContentRendering.literalText m.content)
  ∧ (createTimelineMessageElement m).content = (createMessageElement m).content
  ∧ (m.role = "human" →
        (createMessageElement m).content = ContentRendering.literalText m.content
      ∧ (createTimelineMessageElement m).content = ContentRendering.literalText m.content) := by
  unfold createMessageElement createTimelineMessageElement
  by_cases hr : m.role = "human" <;> by_cases hc : containsMarkdown m.content <;>
    simp [hr, hc]

/-- C3 witness: a human message shaped like markdown still renders as
literal text in both views; an agent heading renders rich; an agent
message with no markers renders literal. -/
theorem human_literal_markdown_dispatch_witness :
    (createMessageElement demoBoldHuman).content = ContentRendering.literalText "**bold**"
  ∧ (createTimelineMessageElement demoBoldHuman).content
      = ContentRendering.literalText "**bold**"
  ∧ (createMessageElement demoHeadingEther).content = ContentRendering.richMarkup "# Title"
  ∧ (createMessageElement demoEther).content = ContentRendering.literalText "plain reply" := by
  have h1 := human_literal_markdown_dispatch demoBoldHuman
  have h2 := human_literal_markdown_dispatch demoHeadingEther
  have h3 := human_literal_markdown_dispatch demoEther
  refine ⟨(h1.2.2.2 rfl).1, (h1.2.2.2 rfl).2, h2.1.mpr ⟨by decide, rfl⟩, ?_⟩
  rcases h3.2.1 with hrich | hlit
  · exact absurd (h3.1.mp hrich).2 (by decide)
  · exact hlit

/-- C5: from any starting state, selecting column A and then receiving a
message for a different role B puts the container into the dual-active
layout keyed by the ordered, unsorted pair — the `data-dual-active`
attribute reads `A-B`, user-selected first; a subsequent message for A
collapses the two coinciding signals to the single-active layout keyed by
A. -/
theorem focus_dual_then_single (A B : String) (hA : A ∈ knownRoles)
    (hB : B ∈ knownRoles) (hAB : A ≠ B) (s0 : ClientState) (mB mA : Message)
    (hmB : mB.role = B) (hmA : mA.role = A) :
    (addMessage mB (userSelectsColumn A s0)).dom.containerHasActive = true
  ∧ (addMessage mB (userSelectsColumn A s0)).dom.dataDualActive = some (A ++ "-" ++ B)
  ∧ (addMessage mB (userSelectsColumn A s0)).dom.dataActive = none
  ∧ (addMessage mA (addMessage mB (userSelectsColumn A s0))).dom.containerHasActive = true
  ∧ (addMessage mA (addMessage mB (userSelectsColumn A s0))).dom.dataActive = some A
  ∧ (addMessage mA (addMessage mB (userSelectsColumn A s0))).dom.dataDualActive = none := by
  have hA' : A ≠ "" := by
    intro h
    rw [h] at hA
    exact absurd hA (by decide)
  have hB' : B ≠ "" := by
    intro h
    rw [h] at hB
    exact absurd hB (by decide)
  have hu : (userSelectsColumn A s0).userSelectedColumn = some A := by
    unfold userSelectsColumn
    rw [if_pos hA']
    exact setUserSelectedColumn_user A s0
  have h1 := addMessage_attrs mB (userSelectsColumn A s0)
  rw [hu, hmB] at h1
  have hspec1 : layoutSpec (some A) (some B) = (true, none, some (A ++ "-" ++ B)) := by
    have hne : (some B != some A) = true := by
      simp [bne_iff_ne]
      exact fun hx => hAB hx.symm
    simp [layoutSpec, activeColumnsList, optTruthy, hA', hB', hne]
  rw [hspec1] at h1
  have hu2 : (addMessage mB (userSelectsColumn A s0)).userSelectedColumn = some A := by
    rw [addMessage_user, hu]
  have h2 := addMessage_attrs mA (addMessage mB (userSelectsColumn A s0))
  rw [hu2, hmA] at h2
  have hspec2 : layoutSpec (some A) (some A) = (true, some A, none) := by
    simp [layoutSpec, activeColumnsList, optTruthy, hA']
  rw [hspec2] at h2
  simp only [layoutAttrsOf, Prod.mk.injEq] at h1 h2
  exact ⟨h1.1, h1.2.2, h1.2.1, h2.1, h2.2.1, h2.2.2⟩

/-- C5 witness: selecting the human column and then receiving an ether
message yields the ordered dual key `human-ether`; a following human
message yields single-active `human`. -/
theorem focus_dual_then_single_witness :
    (addMessage demoEther (userSelectsColumn "human" initialClientState)).dom.dataDualActive
      = some "human-ether"
  ∧ (addMessage demoHuman
        (addMessage demoEther (userSelectsColumn "human" initialClientState))).dom.dataActive
      = some "human" := by
  have h := focus_dual_then_single "human" "ether" (by decide) (by decide) (by decide)
      initialClientState demoEther demoHuman rfl rfl
  exact ⟨h.2.1, h.2.2.2.2.1⟩

/-- C6: the layout recomputation strips all three emphasis classes from
every column in the document before applying new emphasis, so after any
recomputation a column outside the newly computed active set carries no
emphasis class from any earlier computation. -/
theorem emphasis_strip_complete :
    (∀ (dom : DomState) (r : String), r ∈ dom.columns →
        ∀ c ∈ emphasisClasses, c ∉ (stripEmphasis dom).columnClasses r)
  ∧ (∀ (user last : Option String) (dom : DomState) (r : String),
        r ∈ dom.columns → r ∉ activeColumnsList user last →
        ∀ c ∈ emphasisClasses, c ∉ (updateColumnLayout user last dom).columnClasses r) := by
  constructor
  · exact stripEmphasis_no_emph
  · intro user last dom r hr hna c hc
    have hu : optTruthy user = true → r ≠ user.getD "" := by
      intro h he
      exact hna (he ▸ user_mem_active user last h)
    have hl : optTruthy last = true → r ≠ last.getD "" := by
      intro h he
      exact hna (he ▸ last_mem_active user last h)
    rw [updateColumnLayout_classes_other user last dom r hu hl]
    exact stripEmphasis_no_emph dom r hr c hc

/-- C6 witness: a column holding stale emphasis classes that is not in the
new active set ends the recomputation with none of them. -/
theorem emphasis_strip_complete_witness :
    "active" ∉ (updateColumnLayout (some "human") (some "ether") demoStaleDom).columnClasses
        "product_ai"
  ∧ "user-selected" ∉ (updateColumnLayout (some "human") (some "ether")
        demoStaleDom).columnClasses "product_ai"
  ∧ "message-active" ∉ (stripEmphasis demoStaleDom).columnClasses "product_ai" := by
  refine ⟨emphasis_strip_complete.2 (some "human") (some "ether") demoStaleDom "product_ai"
      (by decide) (by decide) "active" (by decide),
    emphasis_strip_complete.2 (some "human") (some "ether") demoStaleDom "product_ai"
      (by decide) (by decide) "user-selected" (by decide),
    emphasis_strip_complete.1 demoStaleDom "product_ai" (by decide) "message-active"
      (by decide)⟩

theorem tsLe_trans : ∀ a b c : Message,
    decide (a.timestamp ≤ b.timestamp) = true →
    decide (b.timestamp ≤ c.timestamp) = true →
    decide (a.timestamp ≤ c.timestamp) = true := by
  intro a b c h1 h2
  simp only [decide_eq_true_eq] at h1 h2 ⊢
  omega

theorem tsLe_total : ∀ a b : Message,
    (decide (a.timestamp ≤ b.timestamp) || decide (b.timestamp ≤ a.timestamp)) = true := by
  intro a b
  simp only [Bool.or_eq_true, decide_eq_true_eq]
  omega

/-- C4: rebuilding the timeline view maps the element builder over a sorted
snapshot of the log and replaces only the timeline container; the snapshot
order is non-decreasing in timestamp; it is a permutation of the log
(every entry is displayed); entries sharing a timestamp keep their
original relative receipt order; the stored log is untouched; and an
immediate second rebuild produces identical output. -/
theorem timeline_rebuild_spec (s : ClientState) :
    renderTimelineView s
      = { s with dom := { s.dom with
            timelineMessages :=
              (timelineSorted s.messages).map createTimelineMessageElement } }
  ∧ List.Pairwise (fun a b : Message => a.timestamp ≤ b.timestamp) (timelineSorted s.messages)
  ∧ (timelineSorted s.messages).Perm s.messages
  ∧ (∀ t : Nat,
        (timelineSorted s.messages).filter (fun mm => mm.timestamp == t)
          = s.messages.filter (fun mm => mm.timestamp == t))
  ∧ (renderTimelineView s).messages = s.messages
  ∧ (renderTimelineView (renderTimelineView s)).dom.timelineMessages
      = (renderTimelineView s).dom.timelineMessages := by
  refine ⟨rfl, ?_, ?_, ?_, rfl, rfl⟩
  · have hs := List.sorted_mergeSort tsLe_trans tsLe_total s.messages
    unfold timelineSorted
    exact hs.imp (by intro a b h; simpa using h)
  · unfold timelineSorted
    exact List.mergeSort_perm s.messages _
  · intro t
    have hsub : (s.messages.filter (fun mm => mm.timestamp == t)).Sublist s.messages :=
      List.filter_sublist s.messages
    have hpair : (s.messages.filter (fun mm => mm.timestamp == t)).Pairwise
        (fun a b => decide (a.timestamp ≤ b.timestamp) = true) := by
      apply List.pairwise_of_forall_mem_list
      intro a ha b hb
      have ha' := @List.of_mem_filter _ (fun mm : Message => mm.timestamp == t) a _ ha
      have hb' := @List.of_mem_filter _ (fun mm : Message => mm.timestamp == t) b _ hb
      simp only [beq_iff_eq] at ha' hb'
      simp [ha', hb']
    have hsl : (s.messages.filter (fun mm => mm.timestamp == t)).Sublist
        (timelineSorted s.messages) := by
      unfold timelineSorted
      exact List.sublist_mergeSort tsLe_trans tsLe_total hpair hsub
    have hfil : ((s.messages.filter (fun mm => mm.timestamp == t)).filter
        (fun mm => mm.timestamp == t)) = s.messages.filter (fun mm => mm.timestamp == t) :=
      List.filter_eq_self.mpr
        (fun a ha => @List.of_mem_filter _ (fun mm : Message => mm.timestamp == t) a _ ha)
    have hsl2 := List.Sublist.filter (fun mm => mm.timestamp == t) hsl
    rw [hfil] at hsl2
    have hperm : ((timelineSorted s.messages).filter (fun mm => mm.timestamp == t)).Perm
        (s.messages.filter (fun mm => mm.timestamp == t)) := by
      unfold timelineSorted
      exact List.Perm.filter _ (List.mergeSort_perm s.messages _)
    exact (hsl2.eq_of_length hperm.length_eq.symm).symm
